import Mathlib

/-!
Verification development for the stock-prediction system.

The repository ships the Next.js frontend (`src/frontend/app/page.tsx`) and
the analyze API route handler (`src/unnamed/part_000`).  The Python backend
(feature engine, volatility model, sentiment aggregator) is not part of the
source tree, so those components are modelled from the specification where a
claim needs them; each such definition carries a doc comment starting with
`Modelled from the spec:`.

All numeric values are embedded as rationals (`ℚ`); JavaScript strings are
Lean `String`s.
-/

namespace StockPrediction

/-- A JSON scalar value, as far as the analyze route handler inspects one:
the handler only ever reads the `ticker` field of the request body and
branches on JavaScript truthiness and `typeof`.  Objects and arrays are
non-string truthy values, represented by `objLike`. -/
inductive JsonVal where
  | str (s : String)
  | num (q : ℚ)
  | boolean (b : Bool)
  | null
  | objLike
  deriving DecidableEq, Repr

/-- JavaScript truthiness of a `JsonVal` (`!v` is `¬ truthy v`). -/
def JsonVal.truthy : JsonVal → Bool
  | .str s => s ≠ ""
  | .num q => q ≠ 0
  | .boolean b => b
  | .null => false
  | .objLike => true

/-- `VolatilityData` from `src/frontend/app/page.tsx` lines 6-13: the shape
of the `volatility` object the frontend consumes. -/
structure VolatilityData where
  predicted : ℚ
  current : ℚ
  change_pct : ℚ
  confidence : String
  r2_score : ℚ
  mae : ℚ
  deriving DecidableEq, Repr

/-- `sentiment_distribution` from the `SentimentData` interface in
`src/frontend/app/page.tsx`. -/
structure SentimentDistribution where
  positive : ℕ
  neutral : ℕ
  negative : ℕ
  deriving DecidableEq, Repr

/-- One element of `context_headlines` from the `SentimentData` interface in
`src/frontend/app/page.tsx`. -/
structure ContextHeadline where
  title : String
  published : String
  sentiment : String
  confidence : ℚ
  deriving DecidableEq, Repr

/-- `SentimentData` from `src/frontend/app/page.tsx` lines 15-33. -/
structure SentimentData where
  ticker : String
  timestamp : String
  time_window_hours : ℚ
  articles_analyzed : ℕ
  sentiment_distribution : SentimentDistribution
  weighted_sentiment_score : ℚ
  average_confidence : ℚ
  signal_strength : String
  context_headlines : List ContextHeadline
  deriving DecidableEq, Repr

/-- The payload the backend's `/predict/{ticker}` endpoint returns on
success, as far as the route handler in `src/unnamed/part_000` reads it:
`data.ticker`, `data.timestamp`, `data.volatility`, `data.sentiment`. -/
structure BackendData where
  ticker : String
  timestamp : String
  volatility : VolatilityData
  sentiment : SentimentData
  deriving DecidableEq, Repr

/-- Outcome of `fetch(backendUrl/predict/...)` followed by `response.json()`
in `src/unnamed/part_000`.  `throws` covers a rejected fetch or an
unparseable body (both land in the handler's catch block); `errResp` is a
response with `ok = false` whose parsed body may carry a `detail` string
(`none` = field absent, `some ""` = present but empty); `okResp` is an
`ok = true` response with a parsed payload. -/
inductive FetchOutcome where
  | throws
  | errResp (status : ℕ) (detail : Option String)
  | okResp (data : BackendData)
  deriving DecidableEq, Repr

/-- Outcome of the OpenRouter chat-completion call in
`src/unnamed/part_000`.  `completes content` models
`completion.choices[0]?.message?.content`: `none` when the optional chain
yields `undefined`/`null`, `some s` when a string comes back. -/
inductive LLMOutcome where
  | throws
  | completes (content : Option String)
  deriving DecidableEq, Repr

/-- The JSON body of a `NextResponse` produced by the handler: either an
`{ error: msg }` object or the success object built at lines 117-123 of
`src/unnamed/part_000`. -/
inductive ResponseBody where
  | err (msg : String)
  | success (ticker : String) (timestamp : String) (volatility : VolatilityData)
      (sentiment : SentimentData) (analysis : String)
  deriving DecidableEq, Repr

/-- The observable result of one run of the `POST` handler: the HTTP status,
the response body, and whether execution reached the backend fetch and the
LLM call. -/
structure HandlerResult where
  status : ℕ
  body : ResponseBody
  backendFetched : Bool
  llmCalled : Bool
  deriving DecidableEq, Repr

/-- `error.detail || 'Failed to fetch prediction'` from
`src/unnamed/part_000` line 95: JavaScript `||` falls through on any falsy
value, so an absent detail and an empty-string detail both yield the
default. -/
def detailOrDefault : Option String → String
  | some d => if d = "" then "Failed to fetch prediction" else d
  | none => "Failed to fetch prediction"

/-- `completion.choices[0]?.message?.content || 'No analysis generated'`
from `src/unnamed/part_000` line 115: missing content and empty-string
content both yield the default. -/
def analysisOrDefault : Option String → String
  | some c => if c = "" then "No analysis generated" else c
  | none => "No analysis generated"

/-- The `ticker` guard at lines 79-86 of `src/unnamed/part_000`:
`if (!ticker || typeof ticker !== 'string')`.  Invalid unless the field is
present, a string, and truthy (i.e. non-empty). -/
def tickerInvalid : Option JsonVal → Bool
  | some (.str s) => s = ""
  | _ => true

/-- The `POST` handler of `src/unnamed/part_000`, as a function of the
request body's `ticker` field and the behaviours of its two external
collaborators (the backend fetch and the LLM call).  Mirrors the source
control flow: ticker guard → backend fetch → non-ok branch → LLM call →
success response, with every thrown exception caught and turned into a
500 `Internal server error`. -/
def POST (tickerField : Option JsonVal) (backend : FetchOutcome)
    (llm : LLMOutcome) : HandlerResult :=
  if tickerInvalid tickerField then
    { status := 400, body := .err "Invalid ticker",
      backendFetched := false, llmCalled := false }
  else
    match backend with
    | .throws =>
        { status := 500, body := .err "Internal server error",
          backendFetched := true, llmCalled := false }
    | .errResp st detail =>
        { status := st, body := .err (detailOrDefault detail),
          backendFetched := true, llmCalled := false }
    | .okResp data =>
        match llm with
        | .throws =>
            { status := 500, body := .err "Internal server error",
              backendFetched := true, llmCalled := true }
        | .completes content =>
            { status := 200,
              body := .success data.ticker data.timestamp data.volatility
                data.sentiment (analysisOrDefault content),
              backendFetched := true, llmCalled := true }

/-- The seven-key emoji mapping inside `formatSignalStrength` in
`src/frontend/app/page.tsx` lines 85-96, as a partial lookup (`none` for a
key outside the mapping object). -/
def signalMapping : String → Option String
  | "strong_positive" => some "Very Positive 🤩"
  | "moderate_positive" => some "Positive 😊"
  | "weak_positive" => some "Slightly Positive 🙂"
  | "mixed" => some "Neutral 😐"
  | "weak_negative" => some "Slightly Negative 🙁"
  | "moderate_negative" => some "Negative 😞"
  | "strong_negative" => some "Very Negative 😱"
  | _ => none

/-- `formatSignalStrength` from `src/frontend/app/page.tsx`:
`mapping[signal] || signal` — look the label up, fall back to the label
itself. -/
def formatSignalStrength (signal : String) : String :=
  (signalMapping signal).getD signal

/-- Rounding to two decimal places: the rational value displayed by
JavaScript's `toFixed(2)`. -/
def toFixed2 (q : ℚ) : ℚ :=
  (round (q * 100) : ℚ) / 100

/-- `formatVolatility` from `src/frontend/app/page.tsx` line 83:
`${(vol * 100).toFixed(2)}%`.  Modelled by the exact rational percentage
the string displays — the value is multiplied by 100 once, rounded to two
decimals; the trailing percent sign of the rendered string is not
modelled. -/
def formatVolatility (vol : ℚ) : ℚ :=
  toFixed2 (vol * 100)

/-! ## Spec-modelled core: sentiment aggregator (§4.4)

The backend sentiment aggregator is not in the source tree; the following
definitions are modelled from the specification. -/

/-- Modelled from the spec: per-headline sentiment label produced by the
(out-of-tree) sentiment classifier — positive, neutral or negative
(§4.4 step 3). -/
inductive SentLabel where
  | positive
  | neutral
  | negative
  deriving DecidableEq, Repr

/-- Modelled from the spec: signed score of a sentiment label,
positive → +1, neutral → 0, negative → −1 (§4.4 step 3). -/
def sentScore : SentLabel → ℚ
  | .positive => 1
  | .neutral => 0
  | .negative => -1

/-- Modelled from the spec: a fetched headline (§3) — title, publish
timestamp (embedded as hours on a common clock), sentiment label and
classifier confidence. -/
structure Headline where
  title : String
  published : ℚ
  sentiment : SentLabel
  confidence : ℚ
  deriving DecidableEq, Repr

/-- Modelled from the spec: aggregator configuration (§4.4) — the recency
window in hours (reference 72) and the exponential-decay weight as a
function of age in hours.  The spec fixes `weight = exp(-decay_constant *
age_hours)`; since `exp` has no exact rational embedding, the weight
function is carried as data, with its defining property (strict
positivity, which `exp` guarantees) taken as a hypothesis by the theorems
that need it. -/
structure AggConfig where
  windowHours : ℚ
  weightFn : ℚ → ℚ

/-- Modelled from the spec: the window membership test (§4.4) — a headline
is included when its age is inside the recency window; the single
documented inequality chosen here is `0 ≤ age_hours < windowHours`. -/
def inWindow (cfg : AggConfig) (asOf : ℚ) (h : Headline) : Bool :=
  0 ≤ asOf - h.published ∧ asOf - h.published < cfg.windowHours

/-- Modelled from the spec: `SentimentSummary` (§3). -/
structure SentimentSummary where
  ticker : String
  asOf : ℚ
  timeWindowHours : ℚ
  articlesAnalyzed : ℕ
  distribution : SentimentDistribution
  weightedSentimentScore : ℚ
  averageConfidence : ℚ
  signalStrength : String
  contextHeadlines : List Headline
  deriving DecidableEq, Repr

/-- Modelled from the spec: the aggregator's error (§6/§7). -/
inductive AggError where
  | insufficientArticles
  deriving DecidableEq, Repr

/-- Modelled from the spec: the seven-band signal-strength classification
of the weighted score (§4.4 step 5), with the reference cut points ±0.6
strong, ±0.3 moderate, ±0.1 weak, else mixed; each threshold taken
inclusively on its own side. -/
def classifySignal (x : ℚ) : String :=
  if 0.6 ≤ x then "strong_positive"
  else if 0.3 ≤ x then "moderate_positive"
  else if 0.1 ≤ x then "weak_positive"
  else if x ≤ -0.6 then "strong_negative"
  else if x ≤ -0.3 then "moderate_negative"
  else if x ≤ -0.1 then "weak_negative"
  else "mixed"

/-- Modelled from the spec: the count of headlines carrying a given label,
for the `sentiment_distribution` field. -/
def countLabel (l : SentLabel) (hs : List Headline) : ℕ :=
  (hs.filter (fun h => h.sentiment = l)).length

/-- Modelled from the spec: the Sentiment Aggregator (§4.4).  Filters the
headline list to the recency window; fails with `InsufficientArticles`
when nothing is in the window; otherwise computes
`weighted_sentiment_score = Σ(weight_i * score_i * confidence_i) / Σ(weight_i)`,
the unweighted mean confidence, the label distribution and the
signal-strength band.  A pure function of (headline list, as-of time,
config). -/
def aggregate (cfg : AggConfig) (ticker : String) (asOf : ℚ)
    (headlines : List Headline) : Except AggError SentimentSummary :=
  let inW := headlines.filter (inWindow cfg asOf)
  if inW.isEmpty then
    .error .insufficientArticles
  else
    let den := (inW.map (fun h => cfg.weightFn (asOf - h.published))).sum
    let num := (inW.map (fun h =>
      cfg.weightFn (asOf - h.published) * sentScore h.sentiment * h.confidence)).sum
    let score := num / den
    .ok
      { ticker := ticker
        asOf := asOf
        timeWindowHours := cfg.windowHours
        articlesAnalyzed := inW.length
        distribution :=
          { positive := countLabel .positive inW
            neutral := countLabel .neutral inW
            negative := countLabel .negative inW }
        weightedSentimentScore := score
        averageConfidence := (inW.map Headline.confidence).sum / inW.length
        signalStrength := classifySignal score
        contextHeadlines := inW }

/-! ## Spec-modelled core: volatility forecast (§4.2, §6) -/

/-- Modelled from the spec: the three-band confidence tier of a volatility
forecast (§4.2). -/
inductive ConfidenceTier where
  | high
  | medium
  | low
  deriving DecidableEq, Repr

/-- Modelled from the spec: the tier derivation from the model's stored
r2_score with the reference thresholds — r2 ≥ 0.6 → high, r2 ≥ 0.3 →
medium, else low (§4.2). -/
def confidenceTier (r2 : ℚ) : ConfidenceTier :=
  if 0.6 ≤ r2 then .high
  else if 0.3 ≤ r2 then .medium
  else .low

/-- Rank of a confidence tier for stating monotonicity: low < medium <
high. -/
def tierRank : ConfidenceTier → ℕ
  | .low => 0
  | .medium => 1
  | .high => 2

/-- The wire label of a confidence tier, as consumed by the frontend's
`confidence : string` field. -/
def tierLabel : ConfidenceTier → String
  | .high => "high"
  | .medium => "medium"
  | .low => "low"

/-- Parsing a tier label back; `none` for a string outside the three
bands. -/
def parseTier : String → Option ConfidenceTier
  | "high" => some .high
  | "medium" => some .medium
  | "low" => some .low
  | _ => none

/-- Modelled from the spec: `ForecastResult` (§3) — predicted volatility,
current volatility, change_pct, confidence tier, r2_score, mae. -/
structure ForecastResult where
  predicted : ℚ
  current : ℚ
  change_pct : ℚ
  confidence : ConfidenceTier
  r2_score : ℚ
  mae : ℚ
  deriving DecidableEq, Repr

/-- Modelled from the spec: the error taxonomy of `GetForecast` (§6). -/
inductive ForecastError where
  | noModel
  | insufficientHistory
  | upstreamFetchFailed
  deriving DecidableEq, Repr

/-- The `volatility` object the consuming layer receives for a given
forecast: each `ForecastResult` field in its `VolatilityData` slot, the
tier serialised to its label. -/
def volatilityOfForecast (r : ForecastResult) : VolatilityData :=
  { predicted := r.predicted
    current := r.current
    change_pct := r.change_pct
    confidence := tierLabel r.confidence
    r2_score := r.r2_score
    mae := r.mae }

/-- Reading a `ForecastResult` back out of the consuming layer's
`VolatilityData`; fails only when the confidence string is not one of the
three tier labels. -/
def forecastOfVolatility (v : VolatilityData) : Option ForecastResult :=
  (parseTier v.confidence).map (fun t =>
    { predicted := v.predicted
      current := v.current
      change_pct := v.change_pct
      confidence := t
      r2_score := v.r2_score
      mae := v.mae })

/-- A concrete volatility payload used to exercise the handler. -/
def sampleVolatility : VolatilityData :=
  { predicted := 2 / 100
    current := 3 / 200
    change_pct := 100 / 3
    confidence := "high"
    r2_score := 7 / 10
    mae := 1 / 500 }

/-- A concrete sentiment payload used to exercise the handler. -/
def sampleSentiment : SentimentData :=
  { ticker := "AAPL"
    timestamp := "2025-01-01T00:00:00Z"
    time_window_hours := 72
    articles_analyzed := 3
    sentiment_distribution := { positive := 1, neutral := 1, negative := 1 }
    weighted_sentiment_score := 1 / 20
    average_confidence := 3 / 4
    signal_strength := "mixed"
    context_headlines := [] }

/-- A concrete backend payload used to exercise the handler. -/
def sampleBackendData : BackendData :=
  { ticker := "AAPL"
    timestamp := "2025-01-01T00:00:00Z"
    volatility := sampleVolatility
    sentiment := sampleSentiment }

/-! ## Theorems -/

/-- C9: for every POST request whose JSON body has no `ticker` field or
whose ticker is not a string, the handler returns HTTP 400 with body
`{ error: 'Invalid ticker' }` and performs no backend fetch and no LLM
call. -/
theorem post_invalid_ticker_rejected (tf : Option JsonVal)
    (backend : FetchOutcome) (llm : LLMOutcome)
    (h : tf = none ∨ ∃ j, tf = some j ∧ ∀ s, j ≠ JsonVal.str s) :
    POST tf backend llm =
      { status := 400, body := .err "Invalid ticker",
        backendFetched := false, llmCalled := false } := by
  have hinv : tickerInvalid tf = true := by
    rcases h with rfl | ⟨j, rfl, hj⟩
    · rfl
    · cases j with
      | str s => exact absurd rfl (hj s)
      | num q => rfl
      | boolean b => rfl
      | null => rfl
      | objLike => rfl
  simp [POST, hinv]

/-- Witness for C9 at a concrete request with no ticker field. -/
theorem post_invalid_ticker_rejected_witness :
    POST none .throws .throws =
      { status := 400, body := .err "Invalid ticker",
        backendFetched := false, llmCalled := false } :=
  post_invalid_ticker_rejected none .throws .throws (Or.inl rfl)

/-- C10 counterexample: the backend can answer non-ok with a body whose
`detail` field is present but the empty string; the handler then returns
the default message `'Failed to fetch prediction'`, not the body's
`detail` value `""` — so the error message is not always equal to the
detail field when it is present. -/
theorem post_empty_detail_cex :
    (POST (some (.str "AAPL")) (.errResp 404 (some "")) .throws).body =
      .err "Failed to fetch prediction" ∧
    (POST (some (.str "AAPL")) (.errResp 404 (some "")) .throws).body ≠
      .err "" := by
  constructor
  · rfl
  · decide

/-- C10 (amended): for a valid ticker, a non-ok backend response yields the
backend's status with error message equal to the body's `detail` field
when that field is a non-empty string (and `'Failed to fetch prediction'`
otherwise), with no LLM call; a thrown backend fetch, and a thrown LLM
call, each yield status 500 with error `'Internal server error'`. -/
theorem post_backend_error_paths (s : String) (st : ℕ)
    (detail : Option String) (llm : LLMOutcome) (data : BackendData)
    (hs : s ≠ "") :
    POST (some (.str s)) (.errResp st detail) llm =
      { status := st, body := .err (detailOrDefault detail),
        backendFetched := true, llmCalled := false } ∧
    (∀ d, d ≠ "" → detailOrDefault (some d) = d) ∧
    detailOrDefault none = "Failed to fetch prediction" ∧
    detailOrDefault (some "") = "Failed to fetch prediction" ∧
    POST (some (.str s)) .throws llm =
      { status := 500, body := .err "Internal server error",
        backendFetched := true, llmCalled := false } ∧
    POST (some (.str s)) (.okResp data) .throws =
      { status := 500, body := .err "Internal server error",
        backendFetched := true, llmCalled := true } := by
  have hinv : tickerInvalid (some (.str s)) = false := by
    simp [tickerInvalid, hs]
  refine ⟨?_, ?_, rfl, rfl, ?_, ?_⟩
  · simp [POST, hinv]
  · intro d hd
    simp [detailOrDefault, hd]
  · simp [POST, hinv]
  · simp [POST, hinv]

/-- Witness for C10's amended theorem at a concrete valid ticker and a
backend 404 with detail `'Ticker not found'`. -/
theorem post_backend_error_paths_witness :
    POST (some (.str "AAPL")) (.errResp 404 (some "Ticker not found")) .throws =
      { status := 404, body := .err (detailOrDefault (some "Ticker not found")),
        backendFetched := true, llmCalled := false } :=
  (post_backend_error_paths "AAPL" 404 (some "Ticker not found") .throws
    sampleBackendData (by simp)).1

/-- C1 counterexample: when the LLM completion carries no content, the
handler still answers 200 with a success body whose `analysis` field has
been silently substituted with the default string
`'No analysis generated'` — so not every field of a returned result is
computed rather than defaulted. -/
theorem post_default_analysis_cex :
    (POST (some (.str "AAPL")) (.okResp sampleBackendData)
        (.completes none)).status = 200 ∧
    (POST (some (.str "AAPL")) (.okResp sampleBackendData)
        (.completes none)).body =
      .success "AAPL" "2025-01-01T00:00:00Z" sampleVolatility sampleSentiment
        "No analysis generated" := by
  constructor
  · rfl
  · rfl

/-- C1 (amended): for a valid ticker, the success path returns the backend's
ticker, timestamp, volatility and sentiment unchanged, with the `analysis`
field equal to the LLM content except that missing or empty content is
silently substituted with the default string `'No analysis generated'`;
every response other than the success path carries a specific error
body. -/
theorem post_success_passthrough_default_analysis (tf : Option JsonVal)
    (data : BackendData) (content : Option String)
    (h : tickerInvalid tf = false) :
    POST tf (.okResp data) (.completes content) =
      { status := 200,
        body := .success data.ticker data.timestamp data.volatility
          data.sentiment (analysisOrDefault content),
        backendFetched := true, llmCalled := true } ∧
    (∀ c, c ≠ "" → analysisOrDefault (some c) = c) ∧
    analysisOrDefault none = "No analysis generated" ∧
    analysisOrDefault (some "") = "No analysis generated" ∧
    (∀ (backend : FetchOutcome) (llm : LLMOutcome),
      (∃ data content, backend = .okResp data ∧ llm = .completes content) ∨
      ∃ msg, (POST tf backend llm).body = .err msg) := by
  refine ⟨by simp [POST, h], ?_, rfl, rfl, ?_⟩
  · intro c hc
    simp [analysisOrDefault, hc]
  · intro backend llm
    cases backend with
    | throws => exact Or.inr ⟨"Internal server error", by simp [POST, h]⟩
    | errResp st detail =>
        exact Or.inr ⟨detailOrDefault detail, by simp [POST, h]⟩
    | okResp d =>
        cases llm with
        | throws => exact Or.inr ⟨"Internal server error", by simp [POST, h]⟩
        | completes c => exact Or.inl ⟨d, c, rfl, rfl⟩

/-- Witness for C1's amended theorem at a concrete valid request with
non-empty LLM content. -/
theorem post_success_passthrough_default_analysis_witness :
    POST (some (.str "AAPL")) (.okResp sampleBackendData)
        (.completes (some "Strong buy.")) =
      { status := 200,
        body := .success sampleBackendData.ticker sampleBackendData.timestamp
          sampleBackendData.volatility sampleBackendData.sentiment
          (analysisOrDefault (some "Strong buy.")),
        backendFetched := true, llmCalled := true } :=
  (post_success_passthrough_default_analysis (some (.str "AAPL"))
    sampleBackendData (some "Strong buy.") (by simp [tickerInvalid])).1

/-- C4: every weighted sentiment score is classified into one of exactly
the seven ordered bands, assigned by the fixed symmetric reference
thresholds ±0.6 strong, ±0.3 moderate, ±0.1 weak, else mixed; every band
label is a key of the frontend's `formatSignalStrength` mapping. -/
theorem signal_strength_seven_bands (x : ℚ) :
    classifySignal x ∈
      ["strong_negative", "moderate_negative", "weak_negative", "mixed",
       "weak_positive", "moderate_positive", "strong_positive"] ∧
    (0.6 ≤ x → classifySignal x = "strong_positive") ∧
    (0.3 ≤ x → x < 0.6 → classifySignal x = "moderate_positive") ∧
    (0.1 ≤ x → x < 0.3 → classifySignal x = "weak_positive") ∧
    (-0.1 < x → x < 0.1 → classifySignal x = "mixed") ∧
    (x ≤ -0.6 → classifySignal x = "strong_negative") ∧
    (-0.6 < x → x ≤ -0.3 → classifySignal x = "moderate_negative") ∧
    (-0.3 < x → x ≤ -0.1 → classifySignal x = "weak_negative") ∧
    (signalMapping (classifySignal x)).isSome = true := by
  unfold classifySignal
  split_ifs with h1 h2 h3 h4 h5 h6 <;>
    refine ⟨by simp, ?_, ?_, ?_, ?_, ?_, ?_, ?_, rfl⟩ <;>
    intros <;> first | rfl | linarith

/-- Witness for C4 at the concrete score 0.7: classified strong_positive. -/
theorem signal_strength_seven_bands_witness :
    classifySignal (7 / 10) = "strong_positive" :=
  (signal_strength_seven_bands (7 / 10)).2.1 (by norm_num)

/-- C5: the confidence tier is a monotone map of the model's stored
r2_score into {high, medium, low} with the fixed reference thresholds
r2 ≥ 0.6 → high, r2 ≥ 0.3 → medium, else low: a higher r2_score never
yields a lower tier. -/
theorem confidence_tier_monotone (a b : ℚ) (h : a ≤ b) :
    tierRank (confidenceTier a) ≤ tierRank (confidenceTier b) ∧
    (0.6 ≤ a → confidenceTier a = .high) ∧
    (0.3 ≤ a → a < 0.6 → confidenceTier a = .medium) ∧
    (a < 0.3 → confidenceTier a = .low) := by
  unfold confidenceTier
  split_ifs with h1 h2 h3 h4 h5 h6 <;>
    refine ⟨by simp [tierRank] <;> linarith, ?_, ?_, ?_⟩ <;>
    intros <;> first | rfl | linarith

/-- Witness for C5 at the concrete pair r2 = 0.2 ≤ 0.7. -/
theorem confidence_tier_monotone_witness :
    tierRank (confidenceTier (2 / 10)) ≤ tierRank (confidenceTier (7 / 10)) :=
  (confidence_tier_monotone (2 / 10) (7 / 10) (by norm_num)).1

/-- C6: the UI's `formatVolatility` multiplies the returned decimal
fraction by 100 exactly once — the displayed percentage differs from
`100 * vol` only by the `toFixed(2)` rounding (at most half of the last
displayed digit, 1/200), and the reference decimal fraction 0.02 displays
as exactly 2 (percent). -/
theorem format_volatility_times_hundred (vol : ℚ) :
    |formatVolatility vol - 100 * vol| ≤ 1 / 200 ∧
    formatVolatility (2 / 100) = 2 := by
  constructor
  · have h : |vol * 100 * 100 - round (vol * 100 * 100)| ≤ 1 / 2 :=
      abs_sub_round (vol * 100 * 100)
    have heq : formatVolatility vol - 100 * vol =
        ((round (vol * 100 * 100) : ℚ) - vol * 100 * 100) / 100 := by
      unfold formatVolatility toFixed2
      ring
    rw [heq, abs_div, abs_sub_comm]
    rw [show |(100 : ℚ)| = 100 by norm_num]
    linarith
  · norm_num [formatVolatility, toFixed2, round_eq]

/-- C7: a successful `GetForecast` carries exactly the six fields
predicted, current, change_pct, confidence tier, r2_score, mae — the
consuming layer's `VolatilityData` object holds them field for field
(serialising the tier to its label) and the forecast is recovered from it
exactly — and everything else a `GetForecast` returns is one of the
specific errors NoModel, InsufficientHistory, UpstreamFetchFailed. -/
theorem forecast_result_fields :
    (∀ r : ForecastResult,
      (volatilityOfForecast r).predicted = r.predicted ∧
      (volatilityOfForecast r).current = r.current ∧
      (volatilityOfForecast r).change_pct = r.change_pct ∧
      (volatilityOfForecast r).confidence = tierLabel r.confidence ∧
      (volatilityOfForecast r).r2_score = r.r2_score ∧
      (volatilityOfForecast r).mae = r.mae ∧
      forecastOfVolatility (volatilityOfForecast r) = some r) ∧
    (∀ o : Except ForecastError ForecastResult,
      (∃ r, o = .ok r) ∨
      o = .error .noModel ∨
      o = .error .insufficientHistory ∨
      o = .error .upstreamFetchFailed) := by
  constructor
  · intro r
    obtain ⟨p, cur, cp, conf, r2, m⟩ := r
    refine ⟨rfl, rfl, rfl, rfl, rfl, rfl, ?_⟩
    cases conf <;> rfl
  · intro o
    cases o with
    | ok r => exact Or.inl ⟨r, rfl⟩
    | error e =>
        cases e with
        | noModel => exact Or.inr (Or.inl rfl)
        | insufficientHistory => exact Or.inr (Or.inr (Or.inl rfl))
        | upstreamFetchFailed => exact Or.inr (Or.inr (Or.inr rfl))

/-- Triangle bound for weighted list sums: when every summand is dominated
in absolute value by its weight, the absolute value of the sum is dominated
by the sum of the weights. -/
theorem abs_sum_le_sum_weights (L : List Headline) (f w : Headline → ℚ)
    (hb : ∀ h ∈ L, |f h| ≤ w h) : |(L.map f).sum| ≤ (L.map w).sum := by
  induction L with
  | nil => simp
  | cons a t ih =>
    simp only [List.map_cons, List.sum_cons]
    calc |f a + (t.map f).sum|
        ≤ |f a| + |(t.map f).sum| := abs_add _ _
      _ ≤ w a + (t.map w).sum :=
          add_le_add (hb a (List.mem_cons_self a t))
            (ih fun h hh => hb h (List.mem_cons_of_mem a hh))

/-- Inversion of a successful aggregation: the in-window filter is
non-empty and the summary's weighted score is the weighted sum over the
in-window headlines divided by the sum of their weights. -/
theorem aggregate_ok_inv (cfg : AggConfig) (ticker : String) (asOf : ℚ)
    (hs : List Headline) (s : SentimentSummary)
    (hok : aggregate cfg ticker asOf hs = .ok s) :
    hs.filter (inWindow cfg asOf) ≠ [] ∧
    s.weightedSentimentScore =
      ((hs.filter (inWindow cfg asOf)).map (fun h =>
        cfg.weightFn (asOf - h.published) * sentScore h.sentiment *
          h.confidence)).sum /
      ((hs.filter (inWindow cfg asOf)).map (fun h =>
        cfg.weightFn (asOf - h.published))).sum := by
  simp only [aggregate] at hok
  by_cases hE : (hs.filter (inWindow cfg asOf)).isEmpty
  · rw [if_pos hE] at hok
    exact absurd hok (by simp)
  · rw [if_neg hE] at hok
    have hne : hs.filter (inWindow cfg asOf) ≠ [] := by
      intro hnil
      simp [hnil] at hE
    refine ⟨hne, ?_⟩
    obtain rfl : _ = s := (Except.ok.injEq _ _).mp hok
    rfl

/-- C2: zero headlines inside the recency window makes the Sentiment
Aggregator fail with `InsufficientArticles`; it never returns a summary
(in particular never a `weighted_sentiment_score` of 0). -/
theorem aggregate_empty_window_insufficient (cfg : AggConfig)
    (ticker : String) (asOf : ℚ) (hs : List Headline)
    (h : hs.filter (inWindow cfg asOf) = []) :
    aggregate cfg ticker asOf hs = .error .insufficientArticles ∧
    ∀ s : SentimentSummary, aggregate cfg ticker asOf hs ≠ .ok s := by
  have hE : (hs.filter (inWindow cfg asOf)).isEmpty = true := by simp [h]
  constructor
  · simp only [aggregate]
    rw [if_pos hE]
  · intro s hok
    exact (aggregate_ok_inv cfg ticker asOf hs s hok).1 h

/-- Witness for C2 at a concrete empty headline list. -/
theorem aggregate_empty_window_insufficient_witness :
    aggregate ⟨72, fun _ => 1⟩ "AAPL" 0 [] = .error .insufficientArticles :=
  (aggregate_empty_window_insufficient ⟨72, fun _ => 1⟩ "AAPL" 0 [] rfl).1

/-- C3: for every non-empty in-window headline set with positive decay
weights (as `exp` guarantees) and per-headline confidences in [0,1], the
weighted sentiment score Σ(weight·score·confidence)/Σ(weight) lies in
[-1, 1] (the per-headline scores are ±1/0 by construction of
`sentScore`). -/
theorem aggregate_score_bounded (cfg : AggConfig) (ticker : String)
    (asOf : ℚ) (hs : List Headline) (s : SentimentSummary)
    (hw : ∀ a : ℚ, 0 < cfg.weightFn a)
    (hc : ∀ h ∈ hs, 0 ≤ h.confidence ∧ h.confidence ≤ 1)
    (hok : aggregate cfg ticker asOf hs = .ok s) :
    -1 ≤ s.weightedSentimentScore ∧ s.weightedSentimentScore ≤ 1 := by
  obtain ⟨hne, hscore⟩ := aggregate_ok_inv cfg ticker asOf hs s hok
  have hdenpos :
      0 < ((hs.filter (inWindow cfg asOf)).map (fun h =>
        cfg.weightFn (asOf - h.published))).sum := by
    apply List.sum_pos
    · intro x hx
      obtain ⟨h, _, rfl⟩ := List.mem_map.mp hx
      exact hw _
    · simpa using hne
  have habs :
      |((hs.filter (inWindow cfg asOf)).map (fun h =>
        cfg.weightFn (asOf - h.published) * sentScore h.sentiment *
          h.confidence)).sum| ≤
      ((hs.filter (inWindow cfg asOf)).map (fun h =>
        cfg.weightFn (asOf - h.published))).sum := by
    apply abs_sum_le_sum_weights
    intro h hh
    have hcf := hc h (List.mem_filter.mp hh).1
    have hsent : |sentScore h.sentiment| ≤ 1 := by
      cases h.sentiment <;> simp [sentScore]
    have hwpos := hw (asOf - h.published)
    have hcabs : |h.confidence| ≤ 1 :=
      abs_le.mpr ⟨by linarith [hcf.1], hcf.2⟩
    calc |cfg.weightFn (asOf - h.published) * sentScore h.sentiment *
            h.confidence|
        = cfg.weightFn (asOf - h.published) *
            (|sentScore h.sentiment| * |h.confidence|) := by
          rw [abs_mul, abs_mul, abs_of_pos hwpos]; ring
      _ ≤ cfg.weightFn (asOf - h.published) * (1 * 1) := by
          apply mul_le_mul_of_nonneg_left _ (le_of_lt hwpos)
          exact mul_le_mul hsent hcabs (abs_nonneg _) zero_le_one
      _ = cfg.weightFn (asOf - h.published) := by ring
  have hq : |s.weightedSentimentScore| ≤ 1 := by
    rw [hscore, abs_div, abs_of_pos hdenpos]
    exact (div_le_one hdenpos).mpr habs
  exact abs_le.mp hq

/-- Modelled from the spec: a concrete aggregator configuration for the
witnesses — 72-hour window, constant unit weight (a positive decay
weight). -/
def witnessCfg : AggConfig := ⟨72, fun _ => 1⟩

/-- A concrete positive headline one hour old at `as_of = 1`. -/
def witnessHeadline : Headline :=
  { title := "Apple beats estimates"
    published := 0
    sentiment := .positive
    confidence := 9 / 10 }

/-- The summary the aggregator computes on the single witness headline. -/
def witnessSummary : SentimentSummary :=
  { ticker := "AAPL"
    asOf := 1
    timeWindowHours := 72
    articlesAnalyzed := 1
    distribution := { positive := 1, neutral := 0, negative := 0 }
    weightedSentimentScore := 9 / 10
    averageConfidence := 9 / 10
    signalStrength := "strong_positive"
    contextHeadlines := [witnessHeadline] }

/-- Witness for C3 at a concrete single-headline input. -/
theorem aggregate_score_bounded_witness :
    aggregate witnessCfg "AAPL" 1 [witnessHeadline] = .ok witnessSummary ∧
    -1 ≤ witnessSummary.weightedSentimentScore ∧
    witnessSummary.weightedSentimentScore ≤ 1 := by
  have hin : inWindow witnessCfg 1 witnessHeadline = true := by
    simp only [inWindow, witnessCfg, witnessHeadline, Bool.and_eq_true,
      decide_eq_true_eq]
    norm_num
  have hfil : [witnessHeadline].filter (inWindow witnessCfg 1) =
      [witnessHeadline] := by
    simp [List.filter, hin]
  have hok : aggregate witnessCfg "AAPL" 1 [witnessHeadline] =
      .ok witnessSummary := by
    simp only [aggregate, hfil]
    norm_num [witnessCfg, witnessHeadline, witnessSummary, countLabel,
      sentScore, classifySignal]
    decide
  refine ⟨hok, ?_⟩
  exact aggregate_score_bounded witnessCfg "AAPL" 1 [witnessHeadline]
    witnessSummary (fun a => one_pos)
    (by
      intro h hh
      rw [List.mem_singleton] at hh
      subst hh
      exact ⟨by norm_num [witnessHeadline], by norm_num [witnessHeadline]⟩)
    hok

/-- C8: the Sentiment Aggregator is a pure function of (headline set,
as-of time, config): two runs on the same unchanged inputs produce
identical `SentimentSummary` outcomes, and the embedding has no state
beyond the computed result. -/
theorem aggregate_two_runs_equal (cfg : AggConfig) (ticker : String)
    (asOf : ℚ) (hs : List Headline)
    (r1 r2 : Except AggError SentimentSummary)
    (h1 : r1 = aggregate cfg ticker asOf hs)
    (h2 : r2 = aggregate cfg ticker asOf hs) : r1 = r2 :=
  h1.trans h2.symm

/-- Witness for C8: two runs at a concrete input coincide. -/
theorem aggregate_two_runs_equal_witness :
    aggregate witnessCfg "MSFT" 2 [witnessHeadline] =
      aggregate witnessCfg "MSFT" 2 [witnessHeadline] :=
  aggregate_two_runs_equal witnessCfg "MSFT" 2 [witnessHeadline] _ _ rfl rfl

end StockPrediction
